import Mathlib

/-!
Verification of the jazz-api aggregator (`src/main.py`).

The endpoint `GET /album` resolves a base release from a metadata-registry
search, fans out to five enrichment fetchers, and merges everything into a
`Profile`.  The embedding below translates each Python helper into a pure Lean
function over a `Json` model.  Network I/O is modelled by passing each
upstream call's decoded response (or the exception it raised) in an
`Upstream` environment; Python exceptions are modelled with `Except PyErr`.
-/

set_option maxRecDepth 4000

/-- Python strings are modelled as lists of characters. -/
abbrev Str := List Char

/-- The Python exceptions this program can raise, plus a network-failure case
for exceptions raised by the HTTP client itself. -/
inductive PyErr where
  | keyError (k : Str)
  | indexError
  | attributeError
  | typeError
  | valueError
  | netError
deriving DecidableEq

/-- Decoded JSON values, the shapes `httpx.Response.json()` can produce. -/
inductive Json where
  | null
  | bool (b : Bool)
  | num (n : Int)
  | str (s : Str)
  | arr (xs : List Json)
  | obj (fields : List (Str × Json))

/-- Python truthiness of a decoded JSON value (`if not x`). -/
def Json.truthy : Json → Bool
  | .null => false
  | .bool b => b
  | .num n => n != 0
  | .str s => !s.isEmpty
  | .arr xs => !xs.isEmpty
  | .obj fs => !fs.isEmpty

/-- First binding of a key in an association list (dict keys are unique, so
first-match lookup is exact). -/
def lookupField : List (Str × Json) → Str → Option Json
  | [], _ => none
  | (k, v) :: rest, key => if k = key then some v else lookupField rest key

/-- Model of `d.get(key)` — `none`-producing lookup; `AttributeError` off a non-dict. -/
def Json.pyGet (j : Json) (key : Str) : Except PyErr Json :=
  match j with
  | .obj fs => .ok ((lookupField fs key).getD .null)
  | _ => .error .attributeError

/-- Model of `d.get(key, default)` — lookup with a default; `AttributeError` off a
non-dict. -/
def Json.pyGetD (j : Json) (key : Str) (default : Json) : Except PyErr Json :=
  match j with
  | .obj fs => .ok ((lookupField fs key).getD default)
  | _ => .error .attributeError

/-- Model of `d[key]` — subscript by string key: `KeyError` when the key is absent,
`TypeError` off anything that is not a dict. -/
def Json.sub (j : Json) (key : Str) : Except PyErr Json :=
  match j with
  | .obj fs =>
    match lookupField fs key with
    | some v => .ok v
    | none => .error (.keyError key)
  | _ => .error .typeError

/-- Model of `x[i]` — subscript by a non-negative integer: lists index into elements,
strings into one-character strings, everything else is a `TypeError`. -/
def Json.idx (j : Json) (i : Nat) : Except PyErr Json :=
  match j with
  | .arr xs =>
    match xs.get? i with
    | some v => .ok v
    | none => .error .indexError
  | .str s =>
    match s.get? i with
    | some c => .ok (.str [c])
    | none => .error .indexError
  | _ => .error .typeError

/-- Model of `x[:n]` — slicing never raises on strings and lists, and is a `TypeError`
on the other JSON shapes. -/
def Json.sliceTo (j : Json) (n : Nat) : Except PyErr Json :=
  match j with
  | .str s => .ok (.str (s.take n))
  | .arr xs => .ok (.arr (xs.take n))
  | _ => .error .typeError

/-- Model of `for x in j` — iterating a decoded value: lists yield elements, strings
yield one-character strings, dicts yield their keys; scalars are a
`TypeError`. -/
def Json.pyIter (j : Json) : Except PyErr (List Json) :=
  match j with
  | .arr xs => .ok xs
  | .str s => .ok (s.map (fun c => .str [c]))
  | .obj fs => .ok (fs.map (fun f => .str f.1))
  | _ => .error .typeError

/-- Calling a `str` method (`.strip()`, `.split(...)`, `.splitlines()`) on a
value: works on strings, `AttributeError` otherwise. -/
def Json.asStr (j : Json) : Except PyErr Str :=
  match j with
  | .str s => .ok s
  | _ => .error .attributeError

/-- Python `a or b` on decoded values. -/
def pyOr (a b : Json) : Json := if a.truthy then a else b

/-- Model of `x == "lit"` between a decoded value and a string literal: true exactly for
the equal string, false (never raising) for every other shape. -/
def Json.isStrEq (j : Json) (s : Str) : Bool :=
  match j with
  | .str t => t = s
  | _ => false

/-- Whitespace as recognised by `str.strip()`. -/
def isPySpace (c : Char) : Bool :=
  c = ' ' || c = '\t' || c = '\n' || c = '\r' || c = '\x0b' || c = '\x0c'

/-- Model of `s.strip()`. -/
def pyStrip (s : Str) : Str :=
  ((s.dropWhile isPySpace).reverse.dropWhile isPySpace).reverse

/-- Python `pat in s` — substring containment. -/
def containsSub (pat : Str) : Str → Bool
  | [] => pat.isEmpty
  | c :: rest => pat.isPrefixOf (c :: rest) || containsSub pat rest

/-- Left-to-right effectful map: a Python `for`-loop or list comprehension
whose body may raise; the first exception wins. -/
def mapExcept {A B : Type} (f : A -> Except PyErr B) : List A -> Except PyErr (List B)
  | [] => .ok []
  | x :: xs => do
    let y <- f x
    let ys <- mapExcept f xs
    return y :: ys

/-- Model of `s.split(". ")` — non-overlapping left-to-right split on the two-character
separator used by `wiki_session`. -/
def splitDotSpace : Str → List Str
  | [] => [[]]
  | '.' :: ' ' :: rest => [] :: splitDotSpace rest
  | c :: rest =>
    match splitDotSpace rest with
    | [] => [[c]]
    | h :: t => (c :: h) :: t

/-- Line-break characters recognised by `str.splitlines()`. -/
def isLineBreak (c : Char) : Bool :=
  c = '\n' || c = '\r' || c = '\x0b' || c = '\x0c' ||
  c = '\x1c' || c = '\x1d' || c = '\x1e' || c = '\x85' ||
  c = '\u2028' || c = '\u2029'

/-- Model of `s.splitlines()`: splits at line boundaries, treats `"\r\n"` as one
boundary, and produces no trailing empty line. -/
def pySplitlines : Str → List Str
  | [] => []
  | '\r' :: '\n' :: rest => [] :: pySplitlines rest
  | c :: rest =>
    if isLineBreak c then [] :: pySplitlines rest
    else
      match pySplitlines rest with
      | [] => [[c]]
      | h :: t => (c :: h) :: t

/-- Model of `" ".join(lines)`. -/
def joinSpace : List Str → Str
  | [] => []
  | [l] => l
  | l :: ls => l ++ ' ' :: joinSpace ls

def digitChar (d : Nat) : Char := Char.ofNat (48 + d)

/-- Decimal digits of `n`, most significant first (structural on a fuel that
always suffices). -/
def natDigitsAux : Nat → Nat → Str
  | 0, _ => []
  | fuel + 1, n =>
    if n < 10 then [digitChar n]
    else natDigitsAux fuel (n / 10) ++ [digitChar (n % 10)]

def natDigits (n : Nat) : Str := natDigitsAux (n + 1) n

/-- Python `str` of an integer. -/
def intStr : Int → Str
  | .ofNat n => natDigits n
  | .negSucc n => '-' :: natDigits (n + 1)

mutual

/-- Python `repr` of a decoded value (quote-escaping inside strings elided). -/
def pyRepr : Json → Str
  | .null => "None".data
  | .bool true => "True".data
  | .bool false => "False".data
  | .num n => intStr n
  | .str s => Char.ofNat 39 :: s ++ [Char.ofNat 39]
  | .arr xs => '[' :: pyStrList xs ++ "]".data
  | .obj fs => "\x7b".data ++ pyStrObj fs ++ "\x7d".data

/-- Comma-separated `repr` rendering of list elements. -/
def pyStrList : List Json → Str
  | [] => []
  | [x] => pyRepr x
  | x :: y :: xs => pyRepr x ++ ", ".data ++ pyStrList (y :: xs)

/-- Comma-separated `repr` rendering of dict items. -/
def pyStrObj : List (Str × Json) → Str
  | [] => []
  | [(k, v)] => pyRepr (.str k) ++ ": ".data ++ pyRepr v
  | (k, v) :: f :: fs =>
    pyRepr (.str k) ++ ": ".data ++ pyRepr v ++ ", ".data ++ pyStrObj (f :: fs)

end

/-- Python `str()`/f-string interpolation: same as `repr` except that strings
render as themselves (the scalar cases are restated so that they reduce
without entering the mutual container rendering). -/
def pyStr : Json → Str
  | .null => "None".data
  | .bool true => "True".data
  | .bool false => "False".data
  | .num n => intStr n
  | .str s => s
  | j => pyRepr j

/-!
## `html.unescape`

`standout_from_web` passes the regex capture through `html.unescape`, whose
behaviour matters for the shape of `standout_notes`: the CPython
implementation matches `&(#[0-9]+;?|#[xX][0-9a-fA-F]+;?|[^\t\n\f <&#;]{1,32};?)`
and, for a named reference that is not in the table as a whole, substitutes
the longest matching *prefix* of the name (so `&timesx` becomes `×x`).  The
algorithm is reproduced below over a representative subset of the `html5`
entity table (the full CPython table has the same shape: every value is at
most two characters, keys appear both with and without a trailing
semicolon for HTML4-era entities). -/

/-- A representative subset of the `html.entities.html5` table. -/
def html5table : List (Str × Str) :=
  [("amp;".data, "&".data), ("amp".data, "&".data),
   ("lt;".data, "<".data), ("lt".data, "<".data),
   ("gt;".data, ">".data), ("gt".data, ">".data),
   ("quot;".data, "\"".data), ("quot".data, "\"".data),
   ("apos;".data, [Char.ofNat 39]),
   ("nbsp;".data, "\xa0".data), ("nbsp".data, "\xa0".data),
   ("times;".data, "×".data), ("times".data, "×".data),
   ("acE;".data, "∾̳".data)]

/-- Association lookup in the entity table. -/
def lookupEntity (tbl : List (Str × Str)) (k : Str) : Option Str :=
  match tbl with
  | [] => none
  | p :: rest => if p.1 = k then some p.2 else lookupEntity rest k

/-- The longest-prefix search of `_replace_charref`: try `s[:x]` for
`x = n, n-1, …, 2` against the semicolon-less entity names. -/
def findEntity (s : Str) : Nat → Option (Str × Str)
  | 0 => none
  | 1 => none
  | n + 2 =>
    match lookupEntity html5table (s.take (n + 2)) with
    | some r => some (r, s.drop (n + 2))
    | none => findEntity s (n + 1)

/-- Replacement text for a named character reference `&s` (`s` may carry its
trailing semicolon): whole-name lookup first, then longest prefix of length
`≥ 2`, otherwise the reference is left as literal text. -/
def namedCharref (s : Str) : Str :=
  match lookupEntity html5table s with
  | some r => r
  | none =>
    match findEntity s (s.length - 1) with
    | some (r, leftover) => r ++ leftover
    | none => '&' :: s

/-- Replacement character for a numeric character reference (the
windows-1252 remapping of `_invalid_charrefs` is elided). -/
def numericRepl (n : Nat) : Str :=
  if n < 0xd800 || (0xe000 ≤ n && n ≤ 0x10ffff) then [Char.ofNat n] else ['�']

/-- Characters allowed in a named reference: the class `[^\t\n\f <&#;]`. -/
def nameChar (c : Char) : Bool :=
  !(c = '\t' || c = '\n' || c = '\x0c' || c = ' ' || c = '<' || c = '&' || c = '#' || c = ';')

def digitsVal (ds : Str) : Nat := ds.foldl (fun a c => a * 10 + (c.toNat - 48)) 0

def hexDigitVal (c : Char) : Nat :=
  if c.toNat ≤ 57 then c.toNat - 48
  else if c.toNat ≤ 70 then c.toNat - 55
  else c.toNat - 87

def hexVal (ds : Str) : Nat := ds.foldl (fun a c => a * 16 + hexDigitVal c) 0

def isDigitChar (c : Char) : Bool := '0' ≤ c && c ≤ '9'

def isHexDigitChar (c : Char) : Bool :=
  isDigitChar c || ('a' ≤ c && c ≤ 'f') || ('A' ≤ c && c ≤ 'F')

/-- Match one character reference right after a `&`: returns the replacement
text together with the number of characters of `rest` consumed, or `none`
when the charref regex does not match here. -/
def matchCharref (rest : Str) : Option (Str × Nat) :=
  match rest with
  | '#' :: r1 =>
    match r1 with
    | c :: r2 =>
      if c = 'x' || c = 'X' then
        if (r2.takeWhile isHexDigitChar).isEmpty then none
        else if (r2.drop (r2.takeWhile isHexDigitChar).length).head? = some ';' then
          some (numericRepl (hexVal (r2.takeWhile isHexDigitChar)),
            3 + (r2.takeWhile isHexDigitChar).length)
        else
          some (numericRepl (hexVal (r2.takeWhile isHexDigitChar)),
            2 + (r2.takeWhile isHexDigitChar).length)
      else
        if (r1.takeWhile isDigitChar).isEmpty then none
        else if (r1.drop (r1.takeWhile isDigitChar).length).head? = some ';' then
          some (numericRepl (digitsVal (r1.takeWhile isDigitChar)),
            2 + (r1.takeWhile isDigitChar).length)
        else
          some (numericRepl (digitsVal (r1.takeWhile isDigitChar)),
            1 + (r1.takeWhile isDigitChar).length)
    | [] => none
  | _ =>
    if min (rest.takeWhile nameChar).length 32 = 0 then none
    else if (rest.drop (min (rest.takeWhile nameChar).length 32)).head? = some ';' then
      some (namedCharref (rest.take (min (rest.takeWhile nameChar).length 32) ++ [';']),
        min (rest.takeWhile nameChar).length 32 + 1)
    else
      some (namedCharref (rest.take (min (rest.takeWhile nameChar).length 32)),
        min (rest.takeWhile nameChar).length 32)

/-- Fuel-based scanner for `html.unescape` (structural recursion on the fuel;
the fuel is always at least the length of the remaining input, so the
exhausted-fuel branch is never taken from `htmlUnescape`). -/
def htmlUnescapeAux : Nat → Str → Str
  | 0, s => s
  | _ + 1, [] => []
  | fuel + 1, '&' :: rest =>
    match matchCharref rest with
    | some (repl, n) => repl ++ htmlUnescapeAux fuel (rest.drop n)
    | none => '&' :: htmlUnescapeAux fuel rest
  | fuel + 1, c :: rest => c :: htmlUnescapeAux fuel rest

/-- Model of `html.unescape`: scan for `&`, substitute matching character references,
keep everything else. -/
def htmlUnescape (s : Str) : Str := htmlUnescapeAux s.length s

/-!
## The `standout` regex

`re.search(r'>([^<]{0,120}standout[^<]{0,120})<', page, re.I)` is reproduced
as an executable leftmost search with Python's greedy backtracking: start
positions scan left to right; at a `>` the first group tries the longest
`[^<]{0,120}` run first and backs off until the literal `standout`
(ASCII-case-insensitively) follows; the trailing `[^<]{0,120}` then extends
greedily and must be terminated by a `<`. -/

/-- Length of the run of non-`<` characters at the front. -/
def nonLtRun (s : Str) : Nat := (s.takeWhile (fun c => c != '<')).length

/-- Attempt a match with a first-group prefix of exactly `k` characters. -/
def matchAtA (rest : Str) (k : Nat) : Option Str :=
  if ((rest.drop k).take 8).map Char.toLower = "standout".data then
    if nonLtRun ((rest.drop k).drop 8) ≤ 120 ∧
        nonLtRun ((rest.drop k).drop 8) < ((rest.drop k).drop 8).length then
      some (rest.take k ++ (rest.drop k).take 8 ++
        ((rest.drop k).drop 8).take (nonLtRun ((rest.drop k).drop 8)))
    else none
  else none

/-- All first-group prefix lengths at one start position, greediest first. -/
def matchAfterGt (rest : Str) : Option Str :=
  (List.range (min 120 (nonLtRun rest) + 1)).reverse.findSome? (matchAtA rest)

/-- The leftmost match of the standout regex: group 1, or `none`. -/
def searchStandout : Str → Option Str
  | [] => none
  | '>' :: rest =>
    match matchAfterGt rest with
    | some g => some g
    | none => searchStandout rest
  | _ :: rest => searchStandout rest

/-!
## The upstream fetchers

Each helper of `main.py` is translated with its network call replaced by the
decoded response it would have produced: an `Except PyErr Json` argument is
either the decoded body (`ok`) or the exception the HTTP client or JSON
decoder raised (`error`).  `asyncio.gather` with the default
`return_exceptions=False` propagates an exception out of the handler; the
joint await is modelled sequentially in task-list order. -/

/-- Record of `life-span`/`area` data assembled by `mb_artist_dates`. -/
structure ArtistInfo where
  born : Json
  died : Json
  area : Json

/-- The cover-archive URL pattern keyed by release-group id. -/
def caaUrl (rg : Str) : Str :=
  "https://coverartarchive.org/release-group/".data ++ rg ++ "/front-500".data

/-- Model of `cover_from_caa`: the probe request's outcome is passed in; the
standardized URL is returned exactly when the probe answered 200. -/
def cover_from_caa (release_group_id : Str) (probe : Except PyErr Nat) :
    Except PyErr Str := do
  let status ← probe
  if status = 200 then return caaUrl release_group_id else return []

/-- One `f'{t["position"]}. {t["title"]}'` track line. -/
def fmtTrack (t : Json) : Except PyErr Str := do
  let pos ← t.sub "position".data
  let title ← t.sub "title".data
  return pyStr pos ++ ". ".data ++ pyStr title

/-- Model of `mb_tracklist`. -/
def mb_tracklist (resp : Except PyErr Json) : Except PyErr (List Str) := do
  let data ← resp
  let mediaJ ← data.pyGetD "media".data (.arr [])
  let media ← mediaJ.pyIter
  let tss ← mapExcept (fun medium => do
    let tracksJ ← medium.pyGetD "tracks".data (.arr [])
    let ts ← tracksJ.pyIter
    mapExcept fmtTrack ts) media
  return tss.flatten

/-- The sentence filter of `wiki_session`:
`"recorded" in sent or "studio" in sent`. -/
def sessionPred (sent : Str) : Bool :=
  containsSub "recorded".data sent || containsSub "studio".data sent

/-- Model of `wiki_session`: a non-200 summary response yields the empty string; the
first `". "`-sentence of the extract containing `recorded` or `studio` is
stripped and re-terminated with a period. -/
def wiki_session (status : Except PyErr Nat) (body : Except PyErr Json) :
    Except PyErr Str := do
  let st ← status
  if st ≠ 200 then return []
  else do
    let data ← body
    let textJ ← data.pyGetD "extract".data (.str [])
    let text ← textJ.asStr
    match (splitDotSpace text).find? sessionPred with
    | some sent => return pyStrip sent ++ ".".data
    | none => return []

/-- Model of `standout_from_web`: regex search over the results page, the capture
unescaped and stripped; no match yields the empty string. -/
def standout_from_web (page : Except PyErr Str) : Except PyErr Str := do
  let text ← page
  match searchStandout text with
  | none => return []
  | some g => return pyStrip (htmlUnescape g)

/-- Model of `mb_release`: raises `ValueError` when the search result carries no
(truthy) `releases`, otherwise returns the first release. -/
def mb_release (resp : Except PyErr Json) : Except PyErr Json := do
  let data ← resp
  let rels ← data.pyGet "releases".data
  if !rels.truthy then throw .valueError
  else do
    let rs ← data.sub "releases".data
    rs.idx 0

/-- Model of `mb_artist_dates`. -/
def mb_artist_dates (resp : Except PyErr Json) : Except PyErr ArtistInfo := do
  let data ← resp
  let life ← data.pyGetD "life-span".data (.obj [])
  let born ← life.pyGetD "begin".data (.str [])
  let died ← life.pyGetD "end".data (.str [])
  let areaJ ← data.pyGet "area".data
  let area ← (pyOr areaJ (.obj [])).pyGetD "name".data (.str [])
  return ⟨born, died, area⟩

/-- Model of `discogs_master`: the master id is subscripted out of the search response
unguarded (`search["results"][0]["id"]`), then the master is fetched. -/
def discogs_master (searchResp masterResp : Except PyErr Json) :
    Except PyErr Json := do
  let search ← searchResp
  let results ← search.sub "results".data
  let first ← results.idx 0
  let _master_id ← first.sub "id".data
  let master ← masterResp
  return master

/-!
## The `/album` handler -/

/-- Decoded upstream responses (or the exceptions fetching them raised) for
one request: everything the outside world feeds the handler. -/
structure Upstream where
  mbSearchResp : Except PyErr Json
  mbArtistResp : Except PyErr Json
  discogsSearchResp : Except PyErr Json
  discogsMasterResp : Except PyErr Json
  mbTracklistResp : Except PyErr Json
  wikiStatus : Except PyErr Nat
  wikiBody : Except PyErr Json
  webPage : Except PyErr Str
  caaStatus : Except PyErr Nat

/-- The `artist` dict of the response. -/
structure ArtistOut where
  name : Str
  born : Json
  died : Json
  area : Json

/-- The `album` dict of the response. -/
structure AlbumOut where
  title : Str
  year : Json
  catalogue : Json

/-- The response schema (pydantic validation of the field values elided: the
fields hold the values as computed). -/
structure Profile where
  artist : ArtistOut
  album : AlbumOut
  personnel : List Str
  quotes : List Str
  cover_url : Json
  long_text : Str
  tracks : List Str
  session_info : Str
  standout_notes : Str

/-- The five results of the `asyncio.gather` call, in task order. -/
structure Fetched where
  artistInfo : ArtistInfo
  disc : Json
  tracks : List Str
  sessionInfo : Str
  standout : Str

/-- Line 132: `mb_release_data["artist-credit"][0]["artist"]["id"]`. -/
def artistIdOf (rel : Json) : Except PyErr Json := do
  let ac ← rel.sub "artist-credit".data
  let first ← ac.idx 0
  let artist ← first.sub "artist".data
  artist.sub "id".data

/-- The `asyncio.gather` fan-out (joint await modelled in task order; with
`return_exceptions=False` any task's exception propagates). -/
def gatherFetches (env : Upstream) : Except PyErr Fetched := do
  let artist_info ← mb_artist_dates env.mbArtistResp
  let disc ← discogs_master env.discogsSearchResp env.discogsMasterResp
  let tracks ← mb_tracklist env.mbTracklistResp
  let session_info ← wiki_session env.wikiStatus env.wikiBody
  let standout ← standout_from_web env.webPage
  return ⟨artist_info, disc, tracks, session_info, standout⟩

/-- Model of `(rel.get("release-group") or {}).get("first-release-date", "")`. -/
def frdOf (rel : Json) : Except PyErr Json := do
  let rg ← rel.pyGet "release-group".data
  (pyOr rg (.obj [])).pyGetD "first-release-date".data (.str [])

/-- Lines 143-146: the year, preferring the release-group's first-release
date (truthiness of its `[:4]` slice) over the release's own date. -/
def yearOf (rel : Json) : Except PyErr Json := do
  let frd ← frdOf rel
  let a ← frd.sliceTo 4
  if a.truthy then return a
  else do
    let dj ← rel.pyGetD "date".data (.str [])
    dj.sliceTo 4

/-- Lines 149-151: first catalogue number when `label-info` is truthy. -/
def catnoOf (rel : Json) : Except PyErr Json := do
  let li ← rel.pyGet "label-info".data
  if li.truthy then do
    let l ← rel.sub "label-info".data
    let first ← l.idx 0
    first.pyGetD "catalog-number".data (.str [])
  else return .str []

/-- One main-artist credit line, `primary` standing in for a blank role. -/
def fmtMain (p : Json) : Except PyErr Str := do
  let name ← p.sub "name".data
  let roleJ ← p.pyGetD "role".data (.str [])
  let role ← roleJ.asStr
  let r := pyStrip role
  return pyStr name ++ " — ".data ++ (if r.isEmpty then "primary".data else r)

/-- One extra-artist credit line (no fallback for a blank role). -/
def fmtExtra (p : Json) : Except PyErr Str := do
  let name ← p.sub "name".data
  let roleJ ← p.pyGetD "role".data (.str [])
  let role ← roleJ.asStr
  return pyStr name ++ " — ".data ++ pyStrip role

/-- Lines 154-160: main plus extra credits, or the placeholder. -/
def personnelOf (disc : Json) : Except PyErr (List Str) := do
  let artsJ ← disc.pyGetD "artists".data (.arr [])
  let arts ← artsJ.pyIter
  let mains ← mapExcept fmtMain arts
  let extrasJ ← disc.pyGetD "extraartists".data (.arr [])
  let extras ← extrasJ.pyIter
  let es ← mapExcept fmtExtra extras
  let all := mains ++ es
  return if all.isEmpty then ["Personnel not listed".data] else all

/-- The generator `(img["uri"] for img in images if img.get("type") == "primary")`
pulled once: the first image typed `primary`, its `uri` subscripted out;
images past the first hit are never touched. -/
def firstPrimary : List Json → Except PyErr (Option Json)
  | [] => return none
  | img :: rest => do
    let t ← img.pyGet "type".data
    if t.isStrEq "primary".data then do
      let u ← img.sub "uri".data
      return some u
    else firstPrimary rest

/-- Model of `(rel.get("release-group") or {}).get("id", "")`. -/
def rgIdOf (rel : Json) : Except PyErr Json := do
  let rg ← rel.pyGet "release-group".data
  (pyOr rg (.obj [])).pyGetD "id".data (.str [])

/-- Lines 163-170: the primary image's uri, falling back — whenever that is
falsy — to the cover-archive URL keyed by a truthy release-group id. -/
def coverOf (disc rel : Json) (caa : Except PyErr Nat) : Except PyErr Json := do
  let imgsJ ← disc.pyGetD "images".data (.arr [])
  let imgs ← imgsJ.pyIter
  let c0 ← firstPrimary imgs
  let cover := c0.getD (.str [])
  if cover.truthy then return cover
  else do
    let rgId ← rgIdOf rel
    if rgId.truthy then do
      let c ← cover_from_caa (pyStr rgId) caa
      return .str c
    else return cover

/-- Line 173: liner notes with line breaks flattened to spaces, cut to 2000
characters. -/
def notesOf (disc : Json) : Except PyErr Str := do
  let nJ ← disc.pyGetD "notes".data (.str [])
  let n ← nJ.asStr
  return (joinSpace (pySplitlines n)).take 2000

/-- Lines 142-194: the merge of the fetched pieces into the `Profile`. -/
def mergeProfile (rel : Json) (f : Fetched) (caa : Except PyErr Nat)
    (albumQ artistQ : Str) : Except PyErr Profile := do
  let year ← yearOf rel
  let catno ← catnoOf rel
  let personnel ← personnelOf f.disc
  let cover ← coverOf f.disc rel caa
  let notes ← notesOf f.disc
  return {
    artist := ⟨artistQ, f.artistInfo.born, f.artistInfo.died, f.artistInfo.area⟩
    album := ⟨albumQ, year, catno⟩
    personnel := personnel
    quotes := []
    cover_url := cover
    long_text := notes
    tracks := f.tracks
    session_info := f.sessionInfo
    standout_notes := f.standout }

/-- Everything after the `try/except`: id extraction, fan-out, merge.  Any
`PyErr` escaping here is an unhandled exception. -/
def handlerRest (env : Upstream) (rel : Json) (albumQ artistQ : Str) :
    Except PyErr Profile := do
  let _artist_id ← artistIdOf rel
  let f ← gatherFetches env
  mergeProfile rel f env.caaStatus albumQ artistQ

/-- How the route's outcome reaches the wire. -/
inductive HandlerResult where
  | http (status : Nat) (detail : Str)
  | unhandled (e : PyErr)

/-- The `/album` route handler (`async def album`): the `try/except` collapses
every resolver failure to HTTP 404; everything later is uncaught. -/
def album (env : Upstream) (albumQ artistQ : Str) : Except HandlerResult Profile :=
  match mb_release env.mbSearchResp with
  | .error _ => .error (.http 404 "Album not found in MusicBrainz".data)
  | .ok rel =>
    match handlerRest env rel albumQ artistQ with
    | .error e => .error (.unhandled e)
    | .ok p => .ok p

/-- The HTTP status the framework sends for a handler outcome: 200 on a
validated body, the `HTTPException`'s own code, 500 on an uncaught
exception. -/
def statusOf (r : Except HandlerResult Profile) : Nat :=
  match r with
  | .ok _ => 200
  | .error (.http c _) => c
  | .error (.unhandled _) => 500

/-!
## Concrete upstream environments

Closed environments used to evaluate the handler end to end: a fully
successful request, the resolver-failure requests, and the inputs that
separate the claims from the code. -/

/-- Shorthand for a JSON string. -/
def jstr (s : String) : Json := .str s.data

/-- A complete, well-shaped base release. -/
def relOK : Json := .obj [
  ("id".data, jstr "rel1"),
  ("artist-credit".data, .arr [.obj [("artist".data, .obj [("id".data, jstr "ar1")])]]),
  ("release-group".data, .obj [
    ("id".data, jstr "rg1"),
    ("first-release-date".data, jstr "1959-08-17")]),
  ("date".data, jstr "1959-08-17"),
  ("label-info".data, .arr [.obj [("catalog-number".data, jstr "CL 1355")]])]

/-- A complete, well-shaped discography master. -/
def discOK : Json := .obj [
  ("artists".data, .arr [.obj [("name".data, jstr "Miles Davis"), ("role".data, jstr "")]]),
  ("extraartists".data, .arr [.obj [("name".data, jstr "Bill Evans"), ("role".data, jstr "Piano")]]),
  ("images".data, .arr [.obj [("type".data, jstr "primary"), ("uri".data, jstr "http://img/1.jpg")]]),
  ("notes".data, jstr "Line one\nLine two")]

/-- An environment in which every upstream call succeeds with full data. -/
def envOK : Upstream := {
  mbSearchResp := .ok (.obj [("releases".data, .arr [relOK])])
  mbArtistResp := .ok (.obj [
    ("life-span".data, .obj [("begin".data, jstr "1926-05-26"), ("end".data, jstr "1991-09-28")]),
    ("area".data, .obj [("name".data, jstr "United States")])])
  discogsSearchResp := .ok (.obj [("results".data, .arr [.obj [("id".data, .num 5)]])])
  discogsMasterResp := .ok discOK
  mbTracklistResp := .ok (.obj [("media".data, .arr [.obj [("tracks".data,
    .arr [.obj [("position".data, .num 1), ("title".data, jstr "So What")]])]])])
  wikiStatus := .ok 200
  wikiBody := .ok (.obj [("extract".data, jstr "It is a studio album. It sold well.")])
  webPage := .ok ">The standout track is here<".data
  caaStatus := .ok 410 }

/-- A minimal well-shaped base release (only the mandatory artist credit). -/
def relMin : Json := .obj [
  ("artist-credit".data, .arr [.obj [("artist".data, .obj [("id".data, jstr "a1")])]])]

/-- Benign environment around a given discogs pair: the other fetchers all
succeed with empty data. -/
def envWith (searchResp masterResp : Except PyErr Json) : Upstream := {
  mbSearchResp := .ok (.obj [("releases".data, .arr [relMin])])
  mbArtistResp := .ok (.obj [])
  discogsSearchResp := searchResp
  discogsMasterResp := masterResp
  mbTracklistResp := .ok (.obj [])
  wikiStatus := .ok 404
  wikiBody := .ok (.obj [])
  webPage := .ok []
  caaStatus := .ok 410 }

/-- C2's failing input: the discogs search body decodes to a dict without
`results`, so `search["results"]` raises `KeyError` inside the fetcher. -/
def envC2 : Upstream := envWith (.ok (.obj [])) (.ok (.obj []))

/-- C4's failing input: a personnel credit without the `name` key, so
`p["name"]` raises `KeyError` while building the credit lines. -/
def envC4 : Upstream :=
  envWith (.ok (.obj [("results".data, .arr [.obj [("id".data, .num 1)]])]))
    (.ok (.obj [("artists".data, .arr [.obj []])]))

/-- C6's failing input: the first (and only) primary image carries an empty
`uri`, and the cover-archive probe answers 200. -/
def envC6 : Upstream := {
  mbSearchResp := .ok (.obj [("releases".data, .arr [.obj [
    ("artist-credit".data, .arr [.obj [("artist".data, .obj [("id".data, jstr "a1")])]]),
    ("release-group".data, .obj [("id".data, jstr "rg9")])]])])
  mbArtistResp := .ok (.obj [])
  discogsSearchResp := .ok (.obj [("results".data, .arr [.obj [("id".data, .num 1)]])])
  discogsMasterResp := .ok (.obj [("images".data,
    .arr [.obj [("type".data, jstr "primary"), ("uri".data, jstr "")]])])
  mbTracklistResp := .ok (.obj [])
  wikiStatus := .ok 404
  wikiBody := .ok (.obj [])
  webPage := .ok []
  caaStatus := .ok 200 }

/-- C10's failing input: the captured region `&timestandout` is rewritten by
entity unescaping into `×tandout`, which no longer contains `standout`. -/
def envC10 : Upstream := {
  mbSearchResp := .ok (.obj [("releases".data, .arr [relMin])])
  mbArtistResp := .ok (.obj [])
  discogsSearchResp := .ok (.obj [("results".data, .arr [.obj [("id".data, .num 1)]])])
  discogsMasterResp := .ok (.obj [])
  mbTracklistResp := .ok (.obj [])
  wikiStatus := .ok 404
  wikiBody := .ok (.obj [])
  webPage := .ok ">&timestandout<".data
  caaStatus := .ok 410 }

/-- A resolver network failure. -/
def env404net : Upstream := { envC2 with mbSearchResp := .error .netError }

/-- A resolver empty-result failure. -/
def env404empty : Upstream :=
  { envC2 with mbSearchResp := .ok (.obj [("releases".data, .arr [])]) }

example : Json.truthy (.str []) = false := by decide
example : pyStrip " a b ".data = "a b".data := by decide
example : splitDotSpace "It was recorded. More".data =
    ["It was recorded".data, "More".data] := by decide
example : pySplitlines "a\r\nb\nc".data = ["a".data, "b".data, "c".data] := by decide
example : joinSpace (pySplitlines "a\nb".data) = "a b".data := by decide

example : htmlUnescape "a &amp; b".data = "a & b".data := by decide
example : htmlUnescape "&timestandout".data = "×tandout".data := by decide
example : htmlUnescape "&#60;x".data = "<x".data := by decide
example : htmlUnescape "&nosuch; &".data = "&nosuch; &".data := by decide

example : searchStandout ">a standout track<x".data = some "a standout track".data := by decide
example : searchStandout "no match here".data = none := by decide
example : searchStandout ">&timestandout<".data = some "&timestandout".data := by decide
example : searchStandout ">Stand<>The StandOut one<".data = some "The StandOut one".data := by
  decide

example :
    album envOK "Kind of Blue".data "Miles Davis".data = .ok {
      artist := ⟨"Miles Davis".data, jstr "1926-05-26", jstr "1991-09-28",
        jstr "United States"⟩
      album := ⟨"Kind of Blue".data, jstr "1959", jstr "CL 1355"⟩
      personnel := ["Miles Davis — primary".data, "Bill Evans — Piano".data]
      quotes := []
      cover_url := jstr "http://img/1.jpg"
      long_text := "Line one Line two".data
      tracks := ["1. So What".data]
      session_info := "It is a studio album.".data
      standout_notes := "The standout track is here".data } := by rfl

example : album envC2 "a".data "b".data =
    .error (.unhandled (.keyError "results".data)) := by rfl

example : album envC4 "a".data "b".data =
    .error (.unhandled (.keyError "name".data)) := by rfl

example : ∃ p, album envC6 "a".data "b".data = .ok p ∧
    p.cover_url = .str (caaUrl "rg9".data) := ⟨_, rfl, rfl⟩

example : ∃ p, album envC10 "a".data "b".data = .ok p ∧
    p.standout_notes = "×tandout".data := ⟨_, rfl, rfl⟩

example : album env404net "a".data "b".data =
    .error (.http 404 "Album not found in MusicBrainz".data) := by rfl

example : album env404empty "a".data "b".data =
    .error (.http 404 "Album not found in MusicBrainz".data) := by rfl

/-!
## Support lemmas -/

theorem lookupEntity_mem {tbl : List (Str × Str)} {k v : Str}
    (h : lookupEntity tbl k = some v) : (k, v) ∈ tbl := by
  induction tbl with
  | nil => simp [lookupEntity] at h
  | cons p rest ih =>
    rw [lookupEntity] at h
    split at h
    · cases h
      rename_i heq
      have hp : (k, p.2) = p := by
        obtain ⟨a, b⟩ := p
        simp only at heq
        simp [heq]
      rw [hp]
      exact List.mem_cons_self _ _
    · exact List.mem_cons_of_mem _ (ih h)

theorem html5table_val_short : ∀ p ∈ html5table, p.2.length ≤ p.1.length + 1 := by
  decide

theorem numericRepl_length (n : Nat) : (numericRepl n).length = 1 := by
  unfold numericRepl
  split <;> rfl

theorem findEntity_spec {s r leftover : Str} :
    ∀ m, findEntity s m = some (r, leftover) →
      ∃ x, lookupEntity html5table (s.take x) = some r ∧ leftover = s.drop x := by
  intro m
  induction m using findEntity.induct s with
  | case1 => intro h; simp [findEntity] at h
  | case2 => intro h; simp [findEntity] at h
  | case3 n r' heq =>
    intro h
    rw [findEntity, heq] at h
    cases h
    exact ⟨n + 2, heq, rfl⟩
  | case4 n heq ih =>
    intro h
    rw [findEntity, heq] at h
    exact ih h

theorem namedCharref_length (s : Str) : (namedCharref s).length ≤ s.length + 1 := by
  unfold namedCharref
  split
  · rename_i r heq
    have := html5table_val_short _ (lookupEntity_mem heq)
    simpa using this
  · split
    · rename_i r leftover heq
      obtain ⟨x, hl, hd⟩ := findEntity_spec _ heq
      have hr := html5table_val_short _ (lookupEntity_mem hl)
      simp only at hr
      simp only [List.length_append, hd, List.length_drop]
      have htl : (s.take x).length ≤ x := List.length_take_le _ _
      have : (s.take x).length + (s.drop x).length = s.length := by
        rw [← List.length_append, List.take_append_drop]
      omega
    · simp

theorem takeWhile_length_le {α : Type} (p : α → Bool) (l : List α) :
    (l.takeWhile p).length ≤ l.length :=
  (List.takeWhile_prefix p).length_le

theorem head?_drop_lt {α : Type} {l : List α} {k : Nat} {c : α}
    (h : (l.drop k).head? = some c) : k < l.length := by
  by_contra hk
  push_neg at hk
  rw [List.drop_eq_nil_of_le hk] at h
  simp at h

theorem matchCharref_spec {rest repl : Str} {n : Nat}
    (h : matchCharref rest = some (repl, n)) :
    repl.length ≤ n + 1 ∧ n ≤ rest.length := by
  unfold matchCharref at h
  split at h
  · rename_i r1
    split at h
    · rename_i c r2
      split at h
      · split at h
        · simp at h
        · split at h
          · cases h
            rename_i hds _ hsc
            refine ⟨by simp [numericRepl_length], ?_⟩
            have := head?_drop_lt hsc
            simp
            omega
          · cases h
            rename_i hds _ _
            refine ⟨by simp [numericRepl_length], ?_⟩
            have := takeWhile_length_le isHexDigitChar r2
            simp
            omega
      · split at h
        · simp at h
        · split at h
          · cases h
            rename_i hds _ hsc
            refine ⟨by simp [numericRepl_length], ?_⟩
            have := head?_drop_lt hsc
            simp at this ⊢
            omega
          · cases h
            rename_i hds _ _
            refine ⟨by simp [numericRepl_length], ?_⟩
            have := takeWhile_length_le isDigitChar (c :: r2)
            simp at this ⊢
            omega
    · simp at h
  · split at h
    · simp at h
    · rename_i hk0
      split at h
      · cases h
        rename_i hsc
        constructor
        · calc (namedCharref (rest.take (min (rest.takeWhile nameChar).length 32) ++ [';'])).length
              ≤ (rest.take (min (rest.takeWhile nameChar).length 32) ++ [';']).length + 1 :=
                namedCharref_length _
          _ ≤ min (rest.takeWhile nameChar).length 32 + 1 + 1 := by
                simp [List.length_take]
          _ = min (rest.takeWhile nameChar).length 32 + 1 + 1 := rfl
        · have := head?_drop_lt hsc
          omega
      · cases h
        constructor
        · calc (namedCharref (rest.take (min (rest.takeWhile nameChar).length 32))).length
              ≤ (rest.take (min (rest.takeWhile nameChar).length 32)).length + 1 :=
                namedCharref_length _
          _ ≤ min (rest.takeWhile nameChar).length 32 + 1 := by
                simp [List.length_take]
        · have := takeWhile_length_le nameChar rest
          omega

theorem htmlUnescapeAux_length (fuel : Nat) (s : Str) :
    (htmlUnescapeAux fuel s).length ≤ s.length := by
  induction fuel, s using htmlUnescapeAux.induct with
  | case1 s => simp [htmlUnescapeAux]
  | case2 fuel => simp [htmlUnescapeAux]
  | case3 fuel rest repl n hm ih =>
    rw [htmlUnescapeAux, hm]
    obtain ⟨h1, h2⟩ := matchCharref_spec hm
    simp only [List.length_append, List.length_cons]
    have := ih
    simp only [List.length_drop] at this
    omega
  | case4 fuel rest hm ih =>
    rw [htmlUnescapeAux, hm]
    simpa using ih
  | case5 fuel c rest hne ih =>
    rw [htmlUnescapeAux]
    · simpa using ih
    · exact hne

theorem htmlUnescape_length (s : Str) : (htmlUnescape s).length ≤ s.length :=
  htmlUnescapeAux_length s.length s

theorem dropWhile_length_le {α : Type} (p : α → Bool) (l : List α) :
    (l.dropWhile p).length ≤ l.length := by
  induction l with
  | nil => simp
  | cons c rest ih =>
    rw [List.dropWhile_cons]
    split
    · simpa using Nat.le_succ_of_le ih
    · simp

theorem pyStrip_length_le (s : Str) : (pyStrip s).length ≤ s.length := by
  unfold pyStrip
  calc ((s.dropWhile isPySpace).reverse.dropWhile isPySpace).reverse.length
      = ((s.dropWhile isPySpace).reverse.dropWhile isPySpace).length := by
        simp
    _ ≤ (s.dropWhile isPySpace).reverse.length := dropWhile_length_le _ _
    _ = (s.dropWhile isPySpace).length := by simp
    _ ≤ s.length := dropWhile_length_le _ _

theorem findSome?_some {α β : Type} {f : α → Option β} :
    ∀ {l : List α} {b : β}, l.findSome? f = some b → ∃ a, a ∈ l ∧ f a = some b := by
  intro l
  induction l with
  | nil => intro b h; simp [List.findSome?] at h
  | cons a t ih =>
    intro b h
    rw [List.findSome?] at h
    cases hfa : f a with
    | some v =>
      rw [hfa] at h
      cases h
      exact ⟨a, List.mem_cons_self _ _, hfa⟩
    | none =>
      rw [hfa] at h
      obtain ⟨x, hx, hfx⟩ := ih h
      exact ⟨x, List.mem_cons_of_mem _ hx, hfx⟩

theorem mem_take_of_le_takeWhile {α : Type} {p : α → Bool} :
    ∀ (l : List α) (k : Nat), k ≤ (l.takeWhile p).length →
      ∀ c ∈ l.take k, p c = true := by
  intro l
  induction l with
  | nil => intro k _ c hc; simp at hc
  | cons a t ih =>
    intro k hk c hc
    cases k with
    | zero => simp at hc
    | succ k =>
      rw [List.takeWhile] at hk
      cases hpa : p a with
      | false => rw [hpa] at hk; simp at hk
      | true =>
        rw [hpa] at hk
        simp only [List.length_cons, Nat.succ_le_succ_iff] at hk
        rw [List.take_succ_cons] at hc
        rcases List.mem_cons.mp hc with hc | hc
        · rw [hc]; exact hpa
        · exact ih k hk c hc

theorem dropWhile_head_not {α : Type} {p : α → Bool} :
    ∀ {l : List α} {c : α} {t : List α}, l.dropWhile p = c :: t → p c = false := by
  intro l
  induction l with
  | nil => intro c t h; simp at h
  | cons a l ih =>
    intro c t h
    rw [List.dropWhile_cons] at h
    split at h
    · exact ih h
    · cases h
      rename_i hpa
      simpa using hpa

theorem drop_takeWhile_length {α : Type} (p : α → Bool) :
    ∀ l : List α, l.drop (l.takeWhile p).length = l.dropWhile p := by
  intro l
  induction l with
  | nil => simp
  | cons a t ih =>
    rw [List.takeWhile, List.dropWhile]
    cases hpa : p a <;> simp [ih]

theorem matchAtA_spec {rest g : Str} {k : Nat} (hk : k ≤ min 120 (nonLtRun rest))
    (h : matchAtA rest k = some g) :
    ∃ v a so b, rest = g ++ '<' :: v ∧ g = a ++ so ++ b ∧
      a.length ≤ 120 ∧ b.length ≤ 120 ∧ so.map Char.toLower = "standout".data ∧
      (∀ c ∈ g, c ≠ '<') := by
  unfold matchAtA at h
  split at h
  · rename_i hso
    split at h
    · rename_i hrun
      cases h
      obtain ⟨hrun120, hrunlt⟩ := hrun
      have h3 : ((rest.drop k).drop 8).drop (nonLtRun ((rest.drop k).drop 8)) =
          ((rest.drop k).drop 8).dropWhile (fun c => c != '<') :=
        drop_takeWhile_length _ _
      have hne : ((rest.drop k).drop 8).drop (nonLtRun ((rest.drop k).drop 8)) ≠ [] := by
        intro hnil
        have hlen := congrArg List.length hnil
        have h2 := hrunlt
        simp only [List.length_drop, List.length_nil] at hlen h2
        omega
      obtain ⟨c, v, hcv⟩ := List.exists_cons_of_ne_nil hne
      have hc : c = '<' := by
        have := dropWhile_head_not (h3 ▸ hcv)
        simpa using this
      have e3 : ((rest.drop k).drop 8).drop (nonLtRun ((rest.drop k).drop 8)) = '<' :: v := by
        rw [hcv, hc]
      refine ⟨v, rest.take k, (rest.drop k).take 8,
        ((rest.drop k).drop 8).take (nonLtRun ((rest.drop k).drop 8)), ?_, rfl, ?_, ?_, hso, ?_⟩
      · -- `rest` decomposes as the capture, the closing '<', and the tail
        have hdec : (rest.take k ++ (rest.drop k).take 8 ++
            ((rest.drop k).drop 8).take (nonLtRun ((rest.drop k).drop 8))) ++ '<' :: v =
            rest := by
          rw [← e3]
          simp only [List.append_assoc]
          rw [List.take_append_drop, List.take_append_drop, List.take_append_drop]
        exact hdec.symm
      · calc (rest.take k).length ≤ k := List.length_take_le _ _
          _ ≤ 120 := le_trans hk (min_le_left _ _)
      · calc (((rest.drop k).drop 8).take (nonLtRun ((rest.drop k).drop 8))).length
            ≤ nonLtRun ((rest.drop k).drop 8) := List.length_take_le _ _
          _ ≤ 120 := hrun120
      · intro c hcm
        rcases List.mem_append.mp hcm with hcm | hcm
        rcases List.mem_append.mp hcm with hcm | hcm
        · -- inside the leading run of non-'<' characters
          have hq := mem_take_of_le_takeWhile rest k
            (le_trans hk (min_le_right _ _)) c hcm
          simpa using hq
        · -- inside the case-folded `standout` literal
          intro hlt
          have hml : c.toLower ∈ "standout".data := by
            rw [← hso]
            exact List.mem_map_of_mem Char.toLower hcm
          rw [hlt] at hml
          simp at hml
        · have hq := mem_take_of_le_takeWhile ((rest.drop k).drop 8)
            (nonLtRun ((rest.drop k).drop 8)) (le_refl _) c hcm
          simpa using hq
    · simp at h
  · simp at h

theorem matchAfterGt_spec {rest g : Str} (h : matchAfterGt rest = some g) :
    ∃ v a so b, rest = g ++ '<' :: v ∧ g = a ++ so ++ b ∧
      a.length ≤ 120 ∧ b.length ≤ 120 ∧ so.map Char.toLower = "standout".data ∧
      (∀ c ∈ g, c ≠ '<') := by
  unfold matchAfterGt at h
  obtain ⟨k, hkmem, hatk⟩ := findSome?_some h
  rw [List.mem_reverse, List.mem_range] at hkmem
  exact matchAtA_spec (Nat.lt_succ_iff.mp hkmem) hatk

theorem searchStandout_spec :
    ∀ {page g : Str}, searchStandout page = some g →
      ∃ u v a so b, page = u ++ '>' :: (g ++ '<' :: v) ∧ g = a ++ so ++ b ∧
        a.length ≤ 120 ∧ b.length ≤ 120 ∧ so.map Char.toLower = "standout".data ∧
        (∀ c ∈ g, c ≠ '<') := by
  intro page
  induction page using searchStandout.induct with
  | case1 => intro g h; simp [searchStandout] at h
  | case2 rest g0 hm =>
    intro g h
    rw [searchStandout, hm] at h
    cases h
    obtain ⟨v, a, so, b, hrest, hg, ha, hb, hso, hlt⟩ := matchAfterGt_spec hm
    exact ⟨[], v, a, so, b, by simp [hrest], hg, ha, hb, hso, hlt⟩
  | case3 rest hm ih =>
    intro g h
    rw [searchStandout, hm] at h
    obtain ⟨u, v, a, so, b, hrest, hg, ha, hb, hso, hlt⟩ := ih h
    exact ⟨'>' :: u, v, a, so, b, by rw [hrest]; rfl, hg, ha, hb, hso, hlt⟩
  | case4 c rest hne ih =>
    intro g h
    rw [searchStandout] at h
    · obtain ⟨u, v, a, so, b, hrest, hg, ha, hb, hso, hlt⟩ := ih h
      exact ⟨c :: u, v, a, so, b, by rw [hrest]; rfl, hg, ha, hb, hso, hlt⟩
    · exact hne

set_option maxHeartbeats 2000000 in
theorem pySplitlines_no_break :
    ∀ (s : Str), ∀ l ∈ pySplitlines s, ∀ c ∈ l, isLineBreak c = false := by
  intro s
  induction s using pySplitlines.induct with
  | case1 => simp [pySplitlines]
  | case2 rest ih =>
    intro l hl c hc
    rw [pySplitlines] at hl
    rcases List.mem_cons.mp hl with h | h
    · subst h; simp at hc
    · exact ih l h c hc
  | case3 c rest hnp hbr ih =>
    intro l hl d hd
    rw [pySplitlines] at hl
    · rw [if_pos hbr] at hl
      rcases List.mem_cons.mp hl with h | h
      · subst h; simp at hd
      · exact ih l h d hd
    · exact hnp
  | case4 c rest hnp hbr hnil ih =>
    intro l hl d hd
    rw [pySplitlines] at hl
    · rw [if_neg (by simpa using hbr), hnil] at hl
      rcases List.mem_cons.mp hl with h | h
      · subst h
        rcases List.mem_singleton.mp hd with rfl
        simpa using hbr
      · simp at h
    · exact hnp
  | case5 c rest hnp hbr h0 t0 hcons ih =>
    intro l hl d hd
    rw [pySplitlines] at hl
    · rw [if_neg (by simpa using hbr), hcons] at hl
      rcases List.mem_cons.mp hl with h | h
      · subst h
        rcases List.mem_cons.mp hd with rfl | hmem
        · simpa using hbr
        · exact ih (h0) (by rw [hcons]; exact List.mem_cons_self _ _) d hmem
      · exact ih l (by rw [hcons]; exact List.mem_cons_of_mem _ h) d hd
    · exact hnp

theorem joinSpace_mem :
    ∀ (ls : List Str) (c : Char), c ∈ joinSpace ls →
      (∃ l ∈ ls, c ∈ l) ∨ c = ' ' := by
  intro ls
  induction ls using joinSpace.induct with
  | case1 => intro c hc; simp [joinSpace] at hc
  | case2 l => intro c hc; rw [joinSpace] at hc; exact Or.inl ⟨l, List.mem_singleton_self _, hc⟩
  | case3 l l2 hne ih =>
    intro c hc
    rw [joinSpace] at hc
    · rcases List.mem_append.mp hc with h | h
      · exact Or.inl ⟨l, List.mem_cons_self _ _, h⟩
      · rcases List.mem_cons.mp h with h | h
        · exact Or.inr h
        · rcases ih c h with ⟨l3, hl3, hcl3⟩ | h
          · exact Or.inl ⟨l3, List.mem_cons_of_mem _ hl3, hcl3⟩
          · exact Or.inr h
    · exact hne

/-!
## Inversion of the handler pipeline -/

theorem album_ok_iff {env : Upstream} {a b : Str} {p : Profile} :
    album env a b = .ok p ↔
      ∃ rel, mb_release env.mbSearchResp = .ok rel ∧ handlerRest env rel a b = .ok p := by
  unfold album
  cases h1 : mb_release env.mbSearchResp with
  | error e => simp
  | ok rel =>
    cases h2 : handlerRest env rel a b with
    | error e => simp [h2]
    | ok q => simp [h2]

theorem handlerRest_ok_iff {env : Upstream} {rel : Json} {a b : Str} {p : Profile} :
    handlerRest env rel a b = .ok p ↔
      ∃ aid f, artistIdOf rel = .ok aid ∧ gatherFetches env = .ok f ∧
        mergeProfile rel f env.caaStatus a b = .ok p := by
  unfold handlerRest
  cases h1 : artistIdOf rel with
  | error e => simp [Except.bind, bind]
  | ok aid =>
    cases h2 : gatherFetches env with
    | error e => simp [Except.bind, bind, h2]
    | ok f => simp [Except.bind, bind, h2]

theorem gatherFetches_ok_iff {env : Upstream} {f : Fetched} :
    gatherFetches env = .ok f ↔
      ∃ ai disc tracks si so,
        mb_artist_dates env.mbArtistResp = .ok ai ∧
        discogs_master env.discogsSearchResp env.discogsMasterResp = .ok disc ∧
        mb_tracklist env.mbTracklistResp = .ok tracks ∧
        wiki_session env.wikiStatus env.wikiBody = .ok si ∧
        standout_from_web env.webPage = .ok so ∧
        f = ⟨ai, disc, tracks, si, so⟩ := by
  unfold gatherFetches
  cases h1 : mb_artist_dates env.mbArtistResp with
  | error e => simp [Except.bind, bind]
  | ok ai =>
    cases h2 : discogs_master env.discogsSearchResp env.discogsMasterResp with
    | error e => simp [Except.bind, bind, h2]
    | ok disc =>
      cases h3 : mb_tracklist env.mbTracklistResp with
      | error e => simp [Except.bind, bind, h3]
      | ok tracks =>
        cases h4 : wiki_session env.wikiStatus env.wikiBody with
        | error e => simp [Except.bind, bind, h4]
        | ok si =>
          cases h5 : standout_from_web env.webPage with
          | error e => simp [Except.bind, bind, h5, pure, Except.pure]
          | ok so =>
            simp only [Except.bind, bind, h5, pure, Except.pure]
            constructor
            · intro h
              cases h
              exact ⟨ai, disc, tracks, si, so, rfl, rfl, rfl, rfl, rfl, rfl⟩
            · rintro ⟨ai', disc', tracks', si', so', ha, hd, ht, hs, hw, rfl⟩
              cases ha; cases hd; cases ht; cases hs; cases hw
              rfl

theorem mergeProfile_ok_iff {rel : Json} {f : Fetched} {caa : Except PyErr Nat}
    {a b : Str} {p : Profile} :
    mergeProfile rel f caa a b = .ok p ↔
      ∃ year catno personnel cover notes,
        yearOf rel = .ok year ∧ catnoOf rel = .ok catno ∧
        personnelOf f.disc = .ok personnel ∧ coverOf f.disc rel caa = .ok cover ∧
        notesOf f.disc = .ok notes ∧
        p = {
          artist := ⟨b, f.artistInfo.born, f.artistInfo.died, f.artistInfo.area⟩
          album := ⟨a, year, catno⟩
          personnel := personnel
          quotes := []
          cover_url := cover
          long_text := notes
          tracks := f.tracks
          session_info := f.sessionInfo
          standout_notes := f.standout } := by
  unfold mergeProfile
  cases h1 : yearOf rel with
  | error e => simp [Except.bind, bind]
  | ok year =>
    cases h2 : catnoOf rel with
    | error e => simp [Except.bind, bind, h2]
    | ok catno =>
      cases h3 : personnelOf f.disc with
      | error e => simp [Except.bind, bind, h3]
      | ok personnel =>
        cases h4 : coverOf f.disc rel caa with
        | error e => simp [Except.bind, bind, h4]
        | ok cover =>
          cases h5 : notesOf f.disc with
          | error e => simp [Except.bind, bind, h5, pure, Except.pure]
          | ok notes =>
            simp only [Except.bind, bind, h5, pure, Except.pure]
            constructor
            · intro h
              cases h
              exact ⟨year, catno, personnel, cover, notes, rfl, rfl, rfl, rfl, rfl, rfl⟩
            · rintro ⟨y', c', pe', co', n', hy, hc, hp, hco, hn, rfl⟩
              cases hy; cases hc; cases hp; cases hco; cases hn
              rfl

/-!
## Claim theorems -/

theorem notesOf_ok {disc : Json} {notes : Str} (h : notesOf disc = .ok notes) :
    ∃ n, notes = (joinSpace (pySplitlines n)).take 2000 := by
  unfold notesOf at h
  cases h1 : disc.pyGetD "notes".data (.str []) with
  | error e => rw [h1] at h; simp [Except.bind, bind] at h
  | ok nJ =>
    rw [h1] at h
    simp only [Except.bind, bind] at h
    cases h2 : nJ.asStr with
    | error e => rw [h2] at h; simp [Except.bind, bind] at h
    | ok n =>
      rw [h2] at h
      simp only [Except.bind, bind, pure, Except.pure, Except.ok.injEq] at h
      exact ⟨n, h.symm⟩

/-- C1: resolving the base release takes the first element of the registry
search's `releases` array, and every resolver failure — network error, empty
result set, or any other exception inside `mb_release` — is caught by the
handler's `try/except` and answered with HTTP 404 (no other error status can
come out of that step). -/
theorem C1_resolver_404_and_first_match (env : Upstream) (a b : Str) :
    (∀ e, mb_release env.mbSearchResp = .error e →
      album env a b = .error (.http 404 "Album not found in MusicBrainz".data) ∧
      statusOf (album env a b) = 404) ∧
    (∀ fs xs rel, env.mbSearchResp = .ok (.obj fs) →
      lookupField fs "releases".data = some (.arr xs) →
      mb_release env.mbSearchResp = .ok rel → xs.get? 0 = some rel) ∧
    (∀ fs, env.mbSearchResp = .ok (.obj fs) →
      lookupField fs "releases".data = some (.arr []) →
      mb_release env.mbSearchResp = .error .valueError) := by
  refine ⟨?_, ?_, ?_⟩
  · intro e he
    unfold album
    rw [he]
    exact ⟨rfl, rfl⟩
  · intro fs xs rel hresp hlk hok
    rw [hresp] at hok
    unfold mb_release at hok
    simp only [Except.bind, bind, Json.pyGet, hlk, Option.getD_some] at hok
    cases xs with
    | nil => simp [Json.truthy, throw, throwThe, MonadExceptOf.throw] at hok
    | cons x0 xs' =>
      simp only [Json.truthy, List.isEmpty_cons, Bool.not_false, Bool.not_true,
        Bool.false_eq_true, if_false, ite_false, Json.sub, hlk, Json.idx,
        List.get?] at hok
      cases hok
      rfl
  · intro fs hresp hlk
    rw [hresp]
    unfold mb_release
    simp only [Except.bind, bind, Json.pyGet, hlk, Option.getD_some, Json.truthy,
      List.isEmpty_nil, Bool.not_true]
    rfl

theorem C1_resolver_404_and_first_match_witness :
    (album env404net "a".data "b".data =
      .error (.http 404 "Album not found in MusicBrainz".data) ∧
     statusOf (album env404net "a".data "b".data) = 404) ∧
    ([relOK] : List Json).get? 0 = some relOK ∧
    mb_release env404empty.mbSearchResp = .error .valueError := by
  refine ⟨(C1_resolver_404_and_first_match env404net "a".data "b".data).1 .netError rfl,
    (C1_resolver_404_and_first_match envOK "a".data "b".data).2.1
      _ [relOK] relOK rfl rfl rfl,
    (C1_resolver_404_and_first_match env404empty "a".data "b".data).2.2 _ rfl rfl⟩

/-- C3: on every successful response the `long_text` field is the liner notes
with all line breaks flattened to spaces and cut to 2000 characters, so it is
at most 2000 characters long and contains no newline. -/
theorem C3_long_text_bounded (env : Upstream) (a b : Str) (p : Profile)
    (h : album env a b = .ok p) :
    p.long_text.length ≤ 2000 ∧ '\n' ∉ p.long_text := by
  obtain ⟨rel, h1, h2⟩ := album_ok_iff.mp h
  obtain ⟨aid, f, h3, h4, h5⟩ := handlerRest_ok_iff.mp h2
  obtain ⟨year, catno, pers, cover, notes, hy, hc, hp, hco, hn, rfl⟩ :=
    mergeProfile_ok_iff.mp h5
  obtain ⟨n, rfl⟩ := notesOf_ok hn
  constructor
  · exact List.length_take_le _ _
  · intro hmem
    have hj : '\n' ∈ joinSpace (pySplitlines n) := List.take_subset _ _ hmem
    rcases joinSpace_mem _ _ hj with ⟨l, hl, hcl⟩ | hsp
    · have := pySplitlines_no_break n l hl '\n' hcl
      simp [isLineBreak] at this
    · simp at hsp

theorem C3_long_text_bounded_witness :
    album envOK "Kind of Blue".data "Miles Davis".data = .ok {
      artist := ⟨"Miles Davis".data, jstr "1926-05-26", jstr "1991-09-28",
        jstr "United States"⟩
      album := ⟨"Kind of Blue".data, jstr "1959", jstr "CL 1355"⟩
      personnel := ["Miles Davis — primary".data, "Bill Evans — Piano".data]
      quotes := []
      cover_url := jstr "http://img/1.jpg"
      long_text := "Line one Line two".data
      tracks := ["1. So What".data]
      session_info := "It is a studio album.".data
      standout_notes := "The standout track is here".data } ∧
    "Line one Line two".data.length ≤ 2000 ∧ '\n' ∉ "Line one Line two".data := by
  refine ⟨rfl, C3_long_text_bounded envOK "Kind of Blue".data "Miles Davis".data _ rfl⟩

/-- C9: on every successful response the `artist.name` and `album.title`
fields echo the caller's query parameters verbatim (the handler builds them
from `artist` and `album`, not from any upstream record). -/
theorem C9_echoes_query_params (env : Upstream) (a b : Str) (p : Profile)
    (h : album env a b = .ok p) :
    p.artist.name = b ∧ p.album.title = a := by
  obtain ⟨rel, h1, h2⟩ := album_ok_iff.mp h
  obtain ⟨aid, f, h3, h4, h5⟩ := handlerRest_ok_iff.mp h2
  obtain ⟨year, catno, pers, cover, notes, hy, hc, hp, hco, hn, rfl⟩ :=
    mergeProfile_ok_iff.mp h5
  exact ⟨rfl, rfl⟩

theorem C9_echoes_query_params_witness :
    ∃ p, album envOK "Kind of Blue".data "Miles Davis".data = .ok p ∧
      p.artist.name = "Miles Davis".data ∧ p.album.title = "Kind of Blue".data := by
  refine ⟨_, rfl, C9_echoes_query_params envOK "Kind of Blue".data "Miles Davis".data _ rfl⟩

theorem personnelOf_ok_iff {disc : Json} {ps : List Str} :
    personnelOf disc = .ok ps ↔
      ∃ aJ arts mains eJ extras es,
        disc.pyGetD "artists".data (.arr []) = .ok aJ ∧ aJ.pyIter = .ok arts ∧
        mapExcept fmtMain arts = .ok mains ∧
        disc.pyGetD "extraartists".data (.arr []) = .ok eJ ∧ eJ.pyIter = .ok extras ∧
        mapExcept fmtExtra extras = .ok es ∧
        ps = (if (mains ++ es).isEmpty then ["Personnel not listed".data]
              else mains ++ es) := by
  constructor
  · intro h
    unfold personnelOf at h
    cases h1 : disc.pyGetD "artists".data (.arr []) with
    | error e => rw [h1] at h; simp [Except.bind, bind] at h
    | ok aJ =>
      rw [h1] at h
      simp only [Except.bind, bind] at h
      cases h2 : aJ.pyIter with
      | error e => rw [h2] at h; simp at h
      | ok arts =>
        rw [h2] at h
        simp only at h
        cases h3 : mapExcept fmtMain arts with
        | error e => rw [h3] at h; simp at h
        | ok mains =>
          rw [h3] at h
          simp only at h
          cases h4 : disc.pyGetD "extraartists".data (.arr []) with
          | error e => rw [h4] at h; simp at h
          | ok eJ =>
            rw [h4] at h
            simp only at h
            cases h5 : eJ.pyIter with
            | error e => rw [h5] at h; simp at h
            | ok extras =>
              rw [h5] at h
              simp only at h
              cases h6 : mapExcept fmtExtra extras with
              | error e => rw [h6] at h; simp at h
              | ok es =>
                rw [h6] at h
                simp only [pure, Except.pure, Except.ok.injEq] at h
                exact ⟨aJ, arts, mains, eJ, extras, es, rfl, h2, h3, rfl, h5, h6, h.symm⟩
  · rintro ⟨aJ, arts, mains, eJ, extras, es, ha, hb, hc, hd, he, hf, rfl⟩
    unfold personnelOf
    simp only [Except.bind, bind, ha, hb, hc, hd, he, hf, pure, Except.pure]

/-- C5: the personnel list of a successful response is never empty: it is the
main-artist credit lines (role `primary` standing in for a blank or
whitespace role) followed by the extra-artist credit lines (role kept as
stripped), and exactly `["Personnel not listed"]` when both credit lists are
empty. -/
theorem C5_personnel_nonempty :
    (∀ (env : Upstream) (a b : Str) (p : Profile),
      album env a b = .ok p → p.personnel ≠ []) ∧
    (∀ (dfs : List (Str × Json)) (arts extras : List Json) (ps : List Str),
      lookupField dfs "artists".data = some (.arr arts) →
      lookupField dfs "extraartists".data = some (.arr extras) →
      personnelOf (.obj dfs) = .ok ps →
      ∃ mains es, mapExcept fmtMain arts = .ok mains ∧ mapExcept fmtExtra extras = .ok es ∧
        ps = (if (mains ++ es).isEmpty then ["Personnel not listed".data]
              else mains ++ es) ∧
        (arts = [] → extras = [] → ps = ["Personnel not listed".data])) ∧
    (∀ (pfs : List (Str × Json)) (name role : Str),
      lookupField pfs "name".data = some (.str name) →
      lookupField pfs "role".data = some (.str role) →
      fmtMain (.obj pfs) = .ok (name ++ " — ".data ++
        (if (pyStrip role).isEmpty then "primary".data else pyStrip role))) ∧
    (∀ (pfs : List (Str × Json)) (name role : Str),
      lookupField pfs "name".data = some (.str name) →
      lookupField pfs "role".data = some (.str role) →
      fmtExtra (.obj pfs) = .ok (name ++ " — ".data ++ pyStrip role)) := by
  refine ⟨?_, ?_, ?_, ?_⟩
  · intro env a b p h
    obtain ⟨rel, h1, h2⟩ := album_ok_iff.mp h
    obtain ⟨aid, f, h3, h4, h5⟩ := handlerRest_ok_iff.mp h2
    obtain ⟨year, catno, pers, cover, notes, hy, hc, hp, hco, hn, rfl⟩ :=
      mergeProfile_ok_iff.mp h5
    obtain ⟨aJ, arts, mains, eJ, extras, es, _, _, _, _, _, _, hps⟩ :=
      personnelOf_ok_iff.mp hp
    simp only [hps]
    split
    · simp
    · rename_i hne
      simpa using hne
  · intro dfs arts extras ps hla hle hok
    obtain ⟨aJ, arts', mains, eJ, extras', es, ha, hb, hc, hd, he, hf, hps⟩ :=
      personnelOf_ok_iff.mp hok
    rw [show (Json.obj dfs).pyGetD "artists".data (.arr []) = .ok (.arr arts) from
      by simp [Json.pyGetD, hla]] at ha
    cases ha
    rw [show (Json.arr arts).pyIter = .ok arts from rfl] at hb
    cases hb
    rw [show (Json.obj dfs).pyGetD "extraartists".data (.arr []) = .ok (.arr extras) from
      by simp [Json.pyGetD, hle]] at hd
    cases hd
    rw [show (Json.arr extras).pyIter = .ok extras from rfl] at he
    cases he
    refine ⟨mains, es, hc, hf, hps, ?_⟩
    intro h1 h2
    subst h1; subst h2
    simp only [mapExcept, Except.ok.injEq] at hc hf
    rw [hps, ← hc, ← hf]
    rfl
  · intro pfs name role hn hr
    unfold fmtMain
    simp [Except.bind, bind, Json.sub, hn, Json.pyGetD, hr, Json.asStr, pyStr,
      pure, Except.pure]
  · intro pfs name role hn hr
    unfold fmtExtra
    simp [Except.bind, bind, Json.sub, hn, Json.pyGetD, hr, Json.asStr, pyStr,
      pure, Except.pure]

theorem C5_personnel_nonempty_witness :
    (∃ p, album envOK "Kind of Blue".data "Miles Davis".data = .ok p ∧
      p.personnel ≠ []) ∧
    personnelOf (.obj [("artists".data, .arr []), ("extraartists".data, .arr [])]) =
      .ok ["Personnel not listed".data] ∧
    fmtMain (.obj [("name".data, jstr "Miles Davis"), ("role".data, jstr " ")]) =
      .ok "Miles Davis — primary".data ∧
    fmtExtra (.obj [("name".data, jstr "Bill Evans"), ("role".data, jstr "Piano")]) =
      .ok "Bill Evans — Piano".data := by
  refine ⟨⟨_, rfl, C5_personnel_nonempty.1 envOK "Kind of Blue".data
      "Miles Davis".data _ rfl⟩, ?_, ?_, ?_⟩
  · obtain ⟨mains, es, hm, he, hps, hboth⟩ := C5_personnel_nonempty.2.1
      [("artists".data, .arr []), ("extraartists".data, .arr [])] [] [] _ rfl rfl rfl
    exact hboth rfl rfl ▸ rfl
  · have := C5_personnel_nonempty.2.2.1
      [("name".data, jstr "Miles Davis"), ("role".data, jstr " ")]
      "Miles Davis".data " ".data rfl rfl
    simpa using this
  · have := C5_personnel_nonempty.2.2.2
      [("name".data, jstr "Bill Evans"), ("role".data, jstr "Piano")]
      "Bill Evans".data "Piano".data rfl rfl
    simpa using this

/-- C7: on every successful response `album.year` comes from `yearOf`, which
takes the first four characters of the release-group's first-release date
when that date is non-empty and of the release's own date otherwise (empty
when both are absent). -/
theorem C7_year_selection :
    (∀ (env : Upstream) (a b : Str) (p : Profile),
      album env a b = .ok p →
      ∃ rel, mb_release env.mbSearchResp = .ok rel ∧ yearOf rel = .ok p.album.year) ∧
    (∀ (rel : Json) (frd dt : Str),
      frdOf rel = .ok (.str frd) →
      rel.pyGetD "date".data (.str []) = .ok (.str dt) →
      yearOf rel = .ok (.str (if frd.isEmpty then dt.take 4 else frd.take 4))) := by
  constructor
  · intro env a b p h
    obtain ⟨rel, h1, h2⟩ := album_ok_iff.mp h
    obtain ⟨aid, f, h3, h4, h5⟩ := handlerRest_ok_iff.mp h2
    obtain ⟨year, catno, pers, cover, notes, hy, hc, hp, hco, hn, rfl⟩ :=
      mergeProfile_ok_iff.mp h5
    exact ⟨rel, h1, hy⟩
  · intro rel frd dt hfrd hdt
    unfold yearOf
    rw [hfrd]
    simp only [Except.bind, bind, Json.sliceTo]
    cases frd with
    | nil => simp [Json.truthy, hdt, Json.sliceTo, Except.bind, bind, pure, Except.pure]
    | cons c rest => simp [Json.truthy, pure, Except.pure]

theorem C7_year_selection_witness :
    (∃ p, album envOK "Kind of Blue".data "Miles Davis".data = .ok p ∧
      ∃ rel, mb_release envOK.mbSearchResp = .ok rel ∧ yearOf rel = .ok p.album.year) ∧
    yearOf relOK = .ok (.str (if "1959-08-17".data.isEmpty then "1959-08-17".data.take 4
      else "1959-08-17".data.take 4)) := by
  exact ⟨⟨_, rfl, C7_year_selection.1 envOK "Kind of Blue".data "Miles Davis".data _ rfl⟩,
    C7_year_selection.2 relOK "1959-08-17".data "1959-08-17".data rfl rfl⟩

/-- C8: `session_info` on a successful response is exactly what
`wiki_session` produced: the empty string when the summary request was
non-200 or no `". "`-sentence of the extract contains `recorded` or
`studio`, and otherwise the first such sentence, stripped and terminated
with a period. -/
theorem C8_session_sentence :
    (∀ (env : Upstream) (a b : Str) (p : Profile),
      album env a b = .ok p →
      wiki_session env.wikiStatus env.wikiBody = .ok p.session_info) ∧
    (∀ (st : Nat) (body : Json) (res : Str),
      wiki_session (.ok st) (.ok body) = .ok res →
      (st ≠ 200 → res = []) ∧
      (st = 200 → ∃ textJ text,
        body.pyGetD "extract".data (.str []) = .ok textJ ∧ textJ.asStr = .ok text ∧
        ((∃ sent, (splitDotSpace text).find? sessionPred = some sent ∧
            res = pyStrip sent ++ ".".data) ∨
         ((splitDotSpace text).find? sessionPred = none ∧ res = [])))) := by
  constructor
  · intro env a b p h
    obtain ⟨rel, h1, h2⟩ := album_ok_iff.mp h
    obtain ⟨aid, f, h3, h4, h5⟩ := handlerRest_ok_iff.mp h2
    obtain ⟨ai, disc, tracks, si, so, g1, g2, g3, g4, g5, rfl⟩ :=
      gatherFetches_ok_iff.mp h4
    obtain ⟨year, catno, pers, cover, notes, hy, hc, hp, hco, hn, rfl⟩ :=
      mergeProfile_ok_iff.mp h5
    exact g4
  · intro st body res h
    unfold wiki_session at h
    simp only [Except.bind, bind] at h
    by_cases hst : st = 200
    · subst hst
      rw [if_neg (by simp)] at h
      cases h1 : (body.pyGetD "extract".data (.str [])) with
      | error e => rw [h1] at h; simp at h
      | ok textJ =>
        rw [h1] at h
        simp only at h
        cases h2 : textJ.asStr with
        | error e => rw [h2] at h; simp at h
        | ok text =>
          rw [h2] at h
          simp only at h
          refine ⟨fun hne => absurd rfl hne, fun _ => ⟨textJ, text, rfl, h2, ?_⟩⟩
          cases hf : (splitDotSpace text).find? sessionPred with
          | some sent =>
            rw [hf] at h
            simp only [pure, Except.pure, Except.ok.injEq] at h
            exact Or.inl ⟨sent, rfl, h.symm⟩
          | none =>
            rw [hf] at h
            simp only [pure, Except.pure, Except.ok.injEq] at h
            exact Or.inr ⟨rfl, h.symm⟩
    · rw [if_pos (by simpa using hst)] at h
      simp only [pure, Except.pure, Except.ok.injEq] at h
      exact ⟨fun _ => h.symm, fun h200 => absurd h200 hst⟩

theorem C8_session_sentence_witness :
    (∃ p, album envOK "Kind of Blue".data "Miles Davis".data = .ok p ∧
      wiki_session envOK.wikiStatus envOK.wikiBody = .ok p.session_info) ∧
    (wiki_session (.ok 404) (.ok (.obj [])) = .ok [] ∧ ([] : Str) = []) ∧
    (∃ textJ text,
      (Json.obj [("extract".data, jstr "It is a studio album. It sold well.")]).pyGetD
        "extract".data (.str []) = .ok textJ ∧ textJ.asStr = .ok text ∧
      ((∃ sent, (splitDotSpace text).find? sessionPred = some sent ∧
          "It is a studio album.".data = pyStrip sent ++ ".".data) ∨
       ((splitDotSpace text).find? sessionPred = none ∧
          "It is a studio album.".data = []))) := by
  refine ⟨⟨_, rfl, (C8_session_sentence.1 envOK "Kind of Blue".data "Miles Davis".data _ rfl)⟩,
    ⟨rfl, (C8_session_sentence.2 404 (.obj []) [] rfl).1 (by decide)⟩, ?_⟩
  exact (C8_session_sentence.2 200
    (.obj [("extract".data, jstr "It is a studio album. It sold well.")])
    "It is a studio album.".data rfl).2 rfl

/-- C2 counterexample: with the base release resolved, a discogs search body
without the `results` key makes `discogs_master` raise `KeyError`, which
propagates out of `asyncio.gather` and turns the response into HTTP 500 —
the failure is not swallowed and the status does not stay 200. -/
theorem C2_counterexample :
    mb_release envC2.mbSearchResp = .ok relMin ∧
    album envC2 "a".data "b".data = .error (.unhandled (.keyError "results".data)) ∧
    statusOf (album envC2 "a".data "b".data) = 500 :=
  ⟨rfl, rfl, rfl⟩

/-- C2 (amended): only the encyclopedia-summary fetcher swallows a non-200
status and the web scraper swallows a missed match (both yielding an empty
string); an exception inside any of the five gathered fetchers — missing
JSON key, network error, non-JSON body — propagates: the handler returns it
unhandled and the response status is 500, not 200. -/
theorem C2_fetcher_failure_propagates :
    (∀ (env : Upstream) (a b : Str) (rel aid : Json) (e : PyErr),
      mb_release env.mbSearchResp = .ok rel →
      artistIdOf rel = .ok aid →
      gatherFetches env = .error e →
      album env a b = .error (.unhandled e) ∧ statusOf (album env a b) = 500) ∧
    (∀ (st : Nat) (body : Except PyErr Json), st ≠ 200 →
      wiki_session (.ok st) body = .ok []) ∧
    (∀ page : Str, searchStandout page = none →
      standout_from_web (.ok page) = .ok []) := by
  refine ⟨?_, ?_, ?_⟩
  · intro env a b rel aid e hrel haid hg
    have hrest : handlerRest env rel a b = .error e := by
      unfold handlerRest
      rw [haid]
      simp only [Except.bind, bind]
      rw [hg]
    constructor
    · simp [album, hrel, hrest]
    · simp [statusOf, album, hrel, hrest]
  · intro st body hne
    unfold wiki_session
    simp only [Except.bind, bind]
    rw [if_pos (by simpa using hne)]
    rfl
  · intro page hs
    unfold standout_from_web
    simp only [Except.bind, bind]
    rw [hs]
    rfl

theorem C2_fetcher_failure_propagates_witness :
    (album envC2 "a".data "b".data =
        .error (.unhandled (.keyError "results".data)) ∧
      statusOf (album envC2 "a".data "b".data) = 500) ∧
    wiki_session (.ok 404) (.ok (.obj [])) = .ok [] ∧
    standout_from_web (.ok []) = .ok [] := by
  exact ⟨C2_fetcher_failure_propagates.1 envC2 "a".data "b".data relMin
      (jstr "a1") (.keyError "results".data) rfl rfl rfl,
    C2_fetcher_failure_propagates.2.1 404 (.ok (.obj [])) (by decide),
    C2_fetcher_failure_propagates.2.2 [] rfl⟩

/-- C4 counterexample: a personnel credit without the `name` key makes the
handler raise `KeyError('name')` while formatting the credit lines — it does
not produce a `Profile` with empty defaults. -/
theorem C4_counterexample :
    discogs_master envC4.discogsSearchResp envC4.discogsMasterResp =
      .ok (.obj [("artists".data, .arr [.obj []])]) ∧
    album envC4 "a".data "b".data = .error (.unhandled (.keyError "name".data)) ∧
    statusOf (album envC4 "a".data "b".data) = 500 :=
  ⟨rfl, rfl, rfl⟩

/-- C4 (amended): the optional fields do default safely — a release without
`release-group`, `date` and `label-info` yields empty year and catalogue; a
master without `notes`, `artists`, `extraartists` and `images` yields empty
notes, the personnel placeholder, and an empty cover (whatever the probe
outcome) — but credits missing `name`, a release missing `artist-credit`, or
a discogs search missing `results` raise instead of defaulting. -/
theorem C4_safe_defaults_for_optional_fields :
    ∀ (relFs discFs : List (Str × Json)) (st : Except PyErr Nat),
      lookupField relFs "release-group".data = none →
      lookupField relFs "date".data = none →
      lookupField relFs "label-info".data = none →
      lookupField discFs "notes".data = none →
      lookupField discFs "artists".data = none →
      lookupField discFs "extraartists".data = none →
      lookupField discFs "images".data = none →
      yearOf (.obj relFs) = .ok (.str []) ∧
      catnoOf (.obj relFs) = .ok (.str []) ∧
      personnelOf (.obj discFs) = .ok ["Personnel not listed".data] ∧
      notesOf (.obj discFs) = .ok [] ∧
      coverOf (.obj discFs) (.obj relFs) st = .ok (.str []) := by
  intro relFs discFs st hrg hdt hli hno har hex him
  refine ⟨?_, ?_, ?_, ?_, ?_⟩
  · unfold yearOf frdOf
    simp [Except.bind, bind, Json.pyGet, hrg, hdt, pyOr, Json.truthy, Json.pyGetD,
      Json.sliceTo, lookupField, pure, Except.pure]
  · unfold catnoOf
    simp [Except.bind, bind, Json.pyGet, hli, Json.truthy, pure, Except.pure]
  · unfold personnelOf
    simp [Except.bind, bind, Json.pyGetD, har, hex, Json.pyIter, mapExcept,
      pure, Except.pure]
  · unfold notesOf
    simp [Except.bind, bind, Json.pyGetD, hno, Json.asStr, pySplitlines, joinSpace,
      pure, Except.pure]
  · unfold coverOf rgIdOf
    simp [Except.bind, bind, Json.pyGetD, him, Json.pyIter, firstPrimary,
      Option.getD, Json.truthy, Json.pyGet, hrg, pyOr, lookupField, pure, Except.pure]

theorem C4_safe_defaults_for_optional_fields_witness :
    lookupField ([] : List (Str × Json)) "release-group".data = none ∧
    (yearOf (.obj []) = .ok (.str []) ∧
     catnoOf (.obj []) = .ok (.str []) ∧
     personnelOf (.obj []) = .ok ["Personnel not listed".data] ∧
     notesOf (.obj []) = .ok [] ∧
     coverOf (.obj []) (.obj []) (.ok 404) = .ok (.str [])) :=
  ⟨rfl, C4_safe_defaults_for_optional_fields [] [] (.ok 404)
    rfl rfl rfl rfl rfl rfl rfl⟩

/-- C6 counterexample: when the first primary image carries an *empty* `uri`,
the handler still falls through to the cover-archive URL (probe 200), so on
this successful response `cover_url` is the CAA URL and not that image's
uri. -/
theorem C6_counterexample :
    firstPrimary [.obj [("type".data, jstr "primary"), ("uri".data, jstr "")]] =
      .ok (some (jstr "")) ∧
    (∃ p, album envC6 "a".data "b".data = .ok p ∧
      p.cover_url = .str (caaUrl "rg9".data)) ∧
    caaUrl "rg9".data ≠ [] := by
  exact ⟨rfl, ⟨_, rfl, rfl⟩, by decide⟩

/-- C6 (amended): on a successful response `cover_url` is the value
`coverOf` computed; the first primary image's uri is used whenever it is
truthy, and otherwise (no primary image, or a falsy uri) the result is that
falsy value, the empty string, or — exactly when the release-group id is
truthy and the probe answered 200 — the standardized cover-archive URL for
the resolved release-group id. -/
theorem C6_cover_source :
    (∀ (env : Upstream) (a b : Str) (p : Profile),
      album env a b = .ok p →
      ∃ rel f, mb_release env.mbSearchResp = .ok rel ∧ gatherFetches env = .ok f ∧
        coverOf f.disc rel env.caaStatus = .ok p.cover_url) ∧
    (∀ (dfs : List (Str × Json)) (rel : Json) (caa : Except PyErr Nat)
        (imgs : List Json) (u res : Json),
      lookupField dfs "images".data = some (.arr imgs) →
      firstPrimary imgs = .ok (some u) → u.truthy = true →
      coverOf (.obj dfs) rel caa = .ok res → res = u) ∧
    (∀ (dfs : List (Str × Json)) (rel : Json) (caa : Except PyErr Nat)
        (imgs : List Json) (c0 : Option Json) (res : Json),
      lookupField dfs "images".data = some (.arr imgs) →
      firstPrimary imgs = .ok c0 → (c0.getD (.str [])).truthy = false →
      coverOf (.obj dfs) rel caa = .ok res →
      res = c0.getD (.str []) ∨ res = .str [] ∨
        ∃ rgJ, rgIdOf rel = .ok rgJ ∧ rgJ.truthy = true ∧ caa = .ok 200 ∧
          res = .str (caaUrl (pyStr rgJ))) := by
  refine ⟨?_, ?_, ?_⟩
  · intro env a b p h
    obtain ⟨rel, h1, h2⟩ := album_ok_iff.mp h
    obtain ⟨aid, f, h3, h4, h5⟩ := handlerRest_ok_iff.mp h2
    obtain ⟨year, catno, pers, cover, notes, hy, hc, hp, hco, hn, rfl⟩ :=
      mergeProfile_ok_iff.mp h5
    exact ⟨rel, f, h1, h4, hco⟩
  · intro dfs rel caa imgs u res hlk hfp htr h
    unfold coverOf at h
    rw [show (Json.obj dfs).pyGetD "images".data (.arr []) = .ok (.arr imgs) from
      by simp [Json.pyGetD, hlk]] at h
    simp only [Except.bind, bind] at h
    rw [show (Json.arr imgs).pyIter = .ok imgs from rfl] at h
    simp only at h
    rw [hfp] at h
    simp only [Option.getD_some] at h
    rw [if_pos htr] at h
    simp only [pure, Except.pure, Except.ok.injEq] at h
    exact h.symm
  · intro dfs rel caa imgs c0 res hlk hfp hfalse h
    unfold coverOf at h
    rw [show (Json.obj dfs).pyGetD "images".data (.arr []) = .ok (.arr imgs) from
      by simp [Json.pyGetD, hlk]] at h
    simp only [Except.bind, bind] at h
    rw [show (Json.arr imgs).pyIter = .ok imgs from rfl] at h
    simp only at h
    rw [hfp] at h
    simp only at h
    rw [if_neg (by simp [hfalse])] at h
    cases h1 : rgIdOf rel with
    | error e => rw [h1] at h; simp [Except.bind, bind] at h
    | ok rgJ =>
      rw [h1] at h
      simp only [Except.bind, bind] at h
      by_cases htr : rgJ.truthy = true
      · rw [if_pos htr] at h
        cases h2 : caa with
        | error e => rw [h2] at h; simp [cover_from_caa, Except.bind, bind] at h
        | ok stc =>
          rw [h2] at h
          by_cases hst : stc = 200
          · subst hst
            simp [cover_from_caa, Except.bind, bind, pure, Except.pure] at h
            exact Or.inr (Or.inr ⟨rgJ, rfl, htr, rfl, h.symm⟩)
          · simp [cover_from_caa, Except.bind, bind, hst, pure, Except.pure] at h
            exact Or.inr (Or.inl h.symm)
      · rw [if_neg htr] at h
        simp only [pure, Except.pure, Except.ok.injEq] at h
        exact Or.inl h.symm

theorem C6_cover_source_witness :
    (∃ p, album envOK "Kind of Blue".data "Miles Davis".data = .ok p ∧
      ∃ rel f, mb_release envOK.mbSearchResp = .ok rel ∧ gatherFetches envOK = .ok f ∧
        coverOf f.disc rel envOK.caaStatus = .ok p.cover_url) ∧
    (∃ res, coverOf (.obj [("images".data,
        .arr [.obj [("type".data, jstr "primary"), ("uri".data, jstr "http://img/1.jpg")]])])
        relOK (.ok 410) = .ok res ∧ res = jstr "http://img/1.jpg") ∧
    (∃ res, coverOf (.obj [("images".data,
        .arr [.obj [("type".data, jstr "primary"), ("uri".data, jstr "")]])])
        (.obj [("release-group".data, .obj [("id".data, jstr "rg9")])]) (.ok 200) =
        .ok res ∧
      (res = (some (jstr "")).getD (.str []) ∨ res = .str [] ∨
        ∃ rgJ, rgIdOf (.obj [("release-group".data, .obj [("id".data, jstr "rg9")])]) =
            .ok rgJ ∧ rgJ.truthy = true ∧ (Except.ok 200 : Except PyErr Nat) = .ok 200 ∧
          res = .str (caaUrl (pyStr rgJ)))) := by
  refine ⟨⟨_, rfl, C6_cover_source.1 envOK "Kind of Blue".data "Miles Davis".data _ rfl⟩,
    ⟨_, rfl, ?_⟩, ⟨_, rfl, ?_⟩⟩
  · exact C6_cover_source.2.1
      [("images".data,
        .arr [.obj [("type".data, jstr "primary"), ("uri".data, jstr "http://img/1.jpg")]])]
      relOK (.ok 410)
      [.obj [("type".data, jstr "primary"), ("uri".data, jstr "http://img/1.jpg")]]
      (jstr "http://img/1.jpg") _ rfl rfl rfl rfl
  · exact C6_cover_source.2.2
      [("images".data, .arr [.obj [("type".data, jstr "primary"), ("uri".data, jstr "")]])]
      (.obj [("release-group".data, .obj [("id".data, jstr "rg9")])]) (.ok 200)
      [.obj [("type".data, jstr "primary"), ("uri".data, jstr "")]]
      (some (jstr "")) _ rfl rfl rfl rfl

/-- C10 counterexample: on the page `>&timestandout<` the captured region is
`&timestandout`; entity unescaping rewrites its longest-prefix entity
`&times` to `×`, consuming the leading `s` of the `standout` occurrence, so
the non-empty `standout_notes` value `×tandout` no longer contains
`standout` in any case. -/
theorem C10_counterexample :
    standout_from_web (.ok ">&timestandout<".data) = .ok "×tandout".data ∧
    "×tandout".data ≠ [] ∧
    containsSub "standout".data ("×tandout".data.map Char.toLower) = false ∧
    (∃ p, album envC10 "a".data "b".data = .ok p ∧
      p.standout_notes = "×tandout".data) := by
  exact ⟨rfl, by decide, by decide, ⟨_, rfl, rfl⟩⟩

/-- C10 (amended): `standout_notes` is either empty or the strip of the
entity-unescape of a capture `g` drawn from between a `>` and a `<` of the
page; before unescaping, `g` is `[^<]{0,120}` + a case-insensitive
`standout` + `[^<]{0,120}` — so `g` has no `<` and at most 248 characters —
and since unescaping never lengthens, the final value is also at most 248
characters (it need not still contain `standout`, as unescaping can rewrite
through the occurrence). -/
theorem C10_standout_shape :
    (∀ (env : Upstream) (a b : Str) (p : Profile),
      album env a b = .ok p →
      standout_from_web env.webPage = .ok p.standout_notes) ∧
    (∀ (page res : Str),
      standout_from_web (.ok page) = .ok res →
      res = [] ∨ ∃ g u v a so b,
        page = u ++ '>' :: (g ++ '<' :: v) ∧ g = a ++ so ++ b ∧
        a.length ≤ 120 ∧ b.length ≤ 120 ∧
        so.map Char.toLower = "standout".data ∧
        (∀ c ∈ g, c ≠ '<') ∧ g.length ≤ 248 ∧
        res = pyStrip (htmlUnescape g) ∧ res.length ≤ 248) := by
  constructor
  · intro env a b p h
    obtain ⟨rel, h1, h2⟩ := album_ok_iff.mp h
    obtain ⟨aid, f, h3, h4, h5⟩ := handlerRest_ok_iff.mp h2
    obtain ⟨ai, disc, tracks, si, so, g1, g2, g3, g4, g5, rfl⟩ :=
      gatherFetches_ok_iff.mp h4
    obtain ⟨year, catno, pers, cover, notes, hy, hc, hp, hco, hn, rfl⟩ :=
      mergeProfile_ok_iff.mp h5
    exact g5
  · intro page res h
    unfold standout_from_web at h
    simp only [Except.bind, bind] at h
    cases hs : searchStandout page with
    | none =>
      rw [hs] at h
      simp only [pure, Except.pure, Except.ok.injEq] at h
      exact Or.inl h.symm
    | some g =>
      rw [hs] at h
      simp only [pure, Except.pure, Except.ok.injEq] at h
      obtain ⟨u, v, a, so, b, hpage, hg, ha, hb, hso, hlt⟩ := searchStandout_spec hs
      have hsolen : so.length = 8 := by
        have := congrArg List.length hso
        simpa using this
      have hglen : g.length ≤ 248 := by
        rw [hg]
        simp only [List.length_append]
        omega
      refine Or.inr ⟨g, u, v, a, so, b, hpage, hg, ha, hb, hso, hlt, hglen, h.symm, ?_⟩
      rw [← h]
      calc (pyStrip (htmlUnescape g)).length
          ≤ (htmlUnescape g).length := pyStrip_length_le _
        _ ≤ g.length := htmlUnescape_length _
        _ ≤ 248 := hglen

theorem C10_standout_shape_witness :
    (∃ p, album envOK "Kind of Blue".data "Miles Davis".data = .ok p ∧
      standout_from_web envOK.webPage = .ok p.standout_notes) ∧
    ("The standout track is here".data = [] ∨ ∃ g u v a so b,
      ">The standout track is here<".data = u ++ '>' :: (g ++ '<' :: v) ∧
      g = a ++ so ++ b ∧ a.length ≤ 120 ∧ b.length ≤ 120 ∧
      so.map Char.toLower = "standout".data ∧
      (∀ c ∈ g, c ≠ '<') ∧ g.length ≤ 248 ∧
      "The standout track is here".data = pyStrip (htmlUnescape g) ∧
      "The standout track is here".data.length ≤ 248) := by
  exact ⟨⟨_, rfl, C10_standout_shape.1 envOK "Kind of Blue".data "Miles Davis".data _ rfl⟩,
    C10_standout_shape.2 ">The standout track is here<".data
      "The standout track is here".data rfl⟩
